import Mathlib

/-!
Verification model of the deeptech_ai profile-aggregation pipeline and the
deeptech_semantic_search embedding store.

Embedded components (shallow embedding, translated from the Python sources):
 * DocumentAggregator (deeptech_ai/Trial_deeptech-saketh/aggregator.py)
 * SemanticMatcher.encode_document (deeptech_ai/Trial_deeptech-saketh/matcher.py)
 * EmbeddingService.generate_embedding and build_expert_text
   (deeptech_semantic_search/services/embedding_service.py)
 * DatabaseService.get_experts_needing_embeddings, update_expert_embedding,
   search_similar_experts (deeptech_semantic_search/services/database_service.py)
 * generate_all_expert_embeddings (deeptech_semantic_search/jobs/generate_embeddings.py)

Modelling conventions:
 * Python float becomes the rationals; Python int becomes the integers.
 * A dict field read with doc.get(key, default) becomes either an Option field
   (when the claims distinguish a missing key) or a field whose default value
   equals the Python default.
 * Python str.lower and str.strip act per character on the underlying char
   list (ASCII behaviour; the repository only feeds ASCII skill names).
 * Counter key order and dict key order are insertion order (first occurrence),
   exactly as in CPython; Counter.most_common and sorted(reverse=True) are a
   stable descending sort, modelled by insertion sort with a non-strict
   comparison, which is stable in the same sense.
 * Python set iteration order is unspecified; where the source iterates a set
   (list(set(..)), max(set(..), key=..)) the model fixes first-occurrence
   order. No theorem below depends on that choice except through membership
   and counting, which are order independent.
 * SQL queries are modelled over an in-memory table, a list of rows held in
   creation order (rows are appended on insert). WHERE is a filter and LIMIT
   is take. ORDER BY is modelled relationally, because PostgreSQL guarantees
   no order among rows with equal sort keys (its sort is not stable and the
   search query has no secondary sort key): an admissible query result is any
   score-descending permutation of the WHERE-filtered rows, truncated by
   LIMIT (admissible_search_output below). The deterministic function
   search_similar_experts fixes one admissible execution - a stable sort of
   the creation-ordered scan - and is used for concrete evaluation only;
   order-sensitive properties are stated against the relation. The pgvector
   cosine operator is external to the repository, so the similarity
   expression 1 - (embedding <=> query) is modelled as an opaque parameter
   sim.
-/

open List

/-- Python str.lower on the character list (ASCII case mapping). -/
def pyLower (s : String) : String := ⟨s.data.map Char.toLower⟩

/-- Python str.strip: remove leading and trailing whitespace. -/
def pyStrip (s : String) : String :=
  ⟨((s.data.dropWhile Char.isWhitespace).reverse.dropWhile Char.isWhitespace).reverse⟩

/-- Keys of a CPython dict or Counter built from a list: every distinct
element, in order of first occurrence. -/
def dedup_first_seen {α : Type} [DecidableEq α] : List α → List α
  | [] => []
  | x :: xs => x :: (dedup_first_seen xs).filter (fun y => decide (y ≠ x))

/-- Python max(x :: xs, key=key): the first element attaining the maximal key
(a later element replaces the current best only on a strictly greater key). -/
def py_max_by {α β : Type} [LinearOrder β] (key : α → β) (x : α) (xs : List α) : α :=
  xs.foldl (fun best c => if key best < key c then c else best) x

/-- Stable descending sort by a key, the behaviour of Python
sorted(l, key=key, reverse=True) and of Counter.most_common: equal keys keep
their original relative order. -/
def sort_by_key_desc {α β : Type} [LinearOrder β] (key : α → β) (l : List α) : List α :=
  l.insertionSort (fun a b => key b ≤ key a)

instance {α β : Type} [LinearOrder β] (key : α → β) :
    DecidableRel (fun (a b : α) => key b ≤ key a) :=
  fun a b => inferInstanceAs (Decidable (key b ≤ key a))

instance {α β : Type} [LinearOrder β] (key : α → β) :
    IsTotal α (fun (a b : α) => key b ≤ key a) :=
  ⟨fun a b => le_total (key b) (key a)⟩

instance {α β : Type} [LinearOrder β] (key : α → β) :
    IsTrans α (fun (a b : α) => key b ≤ key a) :=
  ⟨fun _ _ _ h₁ h₂ => le_trans h₂ h₁⟩

/-- Stable ascending sort by a key (SQL ORDER BY key ASC over a scan). -/
def sort_by_key_asc {α β : Type} [LinearOrder β] (key : α → β) (l : List α) : List α :=
  l.insertionSort (fun a b => key a ≤ key b)

instance {α β : Type} [LinearOrder β] (key : α → β) :
    DecidableRel (fun (a b : α) => key a ≤ key b) :=
  fun a b => inferInstanceAs (Decidable (key a ≤ key b))

/-! ## DocumentAggregator (aggregator.py)

One SourceDocument, as consumed by DocumentAggregator. Fields the Python code
reads with doc.get(k, default) are given that default; name, source_type and
years_experience keep Option form because the code distinguishes a missing key
from a present value (doc.get with no default returns None). -/

structure Doc where
  source_type : Option String := none
  name : Option String := none
  full_text : String := ""
  years_experience : Option ℚ := none
  skills : List String := []
  certifications : List String := []
  paper_count : Int := 0
  patent_count : Int := 0
  research_titles : List String := []
  research_summary : String := ""
  blog_post_count : Int := 0
  community_answers : Int := 0
  upvotes : Int := 0
  github_repos : Int := 0
  github_stars : Int := 0
  github_commits : Int := 0
  top_topics : List String := []
  github_languages : List String := []

/-- Concatenation of the skills lists of all documents, in document order
(the all_skills accumulator of merge_skills). -/
def all_skills (docs : List Doc) : List String := docs.flatMap Doc.skills

/-- The list Counter is built from in merge_skills: every declared skill,
lower-cased, in document order. -/
def lowered_skills (docs : List Doc) : List String := (all_skills docs).map pyLower

/-- Items of Counter(l): each distinct element (insertion order) with its
multiplicity in l. -/
def counter_items (l : List String) : List (String × Nat) :=
  (dedup_first_seen l).map (fun k => (k, l.count k))

/-- Counter(l).most_common(): items sorted by count descending, ties in
first-seen order (sorted with reverse=True is stable); keys only. -/
def most_common (l : List String) : List String :=
  (sort_by_key_desc Prod.snd (counter_items l)).map Prod.fst

/-- DocumentAggregator.merge_skills: Counter of the lower-cased skills, keys
returned in most_common order. Note the returned strings are the lower-cased
forms: the Counter is built from skill.lower(), so no original casing
survives. -/
def merge_skills (docs : List Doc) : List String := most_common (lowered_skills docs)

/-- DocumentAggregator.merge_experience: max of doc.get('years_experience', 0)
over the documents, 0 for the empty list. -/
def merge_experience (docs : List Doc) : ℚ :=
  match docs.map (fun d => d.years_experience.getD 0) with
  | [] => 0
  | y :: ys => ys.foldl max y

/-- DocumentAggregator.merge_certifications: the number of distinct
lower-cased certification strings. -/
def merge_certifications (docs : List Doc) : Nat :=
  (dedup_first_seen ((docs.flatMap Doc.certifications).map pyLower)).length

/-- The research_titles field of merge_research: list(set(all_titles)),
modelled in first-occurrence order. -/
def merge_research_titles (docs : List Doc) : List String :=
  dedup_first_seen (docs.flatMap Doc.research_titles)

/-- The research_summary field of merge_research: the longest truthy summary
(max(summaries, key=len), first one wins ties), empty when none. -/
def merge_research_summary (docs : List Doc) : String :=
  match (docs.map Doc.research_summary).filter (fun s => decide (s ≠ "")) with
  | [] => ""
  | s :: ss => py_max_by String.length s ss

/-- DocumentAggregator._merge_topics: topics plus github languages of every
document, counted, top ten by count (most_common(10), stable). -/
def merge_topics (docs : List Doc) : List String :=
  (most_common (docs.flatMap (fun d => d.top_topics ++ d.github_languages))).take 10

/-- Name candidates collected by aggregate_profile:
[doc.get('name', 'Unknown') for doc in documents if doc.get('name') != 'Unknown'].
A document whose name key is missing passes the filter (None != 'Unknown') and
contributes the default 'Unknown'; a document whose name is the literal
'Unknown' is dropped. -/
def name_votes (docs : List Doc) : List String :=
  docs.filterMap (fun d =>
    match d.name with
    | none => some "Unknown"
    | some n => if n = "Unknown" then none else some n)

/-- Name resolution of aggregate_profile:
max(set(names), key=names.count) if names else 'Unknown'. Set iteration is
modelled in first-occurrence order; Python max keeps the earliest maximal
element. -/
def resolve_votes : List String → String
  | [] => "Unknown"
  | v :: vs =>
    match dedup_first_seen (v :: vs) with
    | [] => "Unknown"
    | c :: cs => py_max_by (fun x => (v :: vs).count x) c cs

/-- Name resolution applied to the collected votes. -/
def resolve_name (docs : List Doc) : String := resolve_votes (name_votes docs)

/-- Combined full_text of aggregate_profile: the truthy full_text fields
joined in document order with the separator token. -/
def combined_text (docs : List Doc) : String :=
  String.intercalate "\n\n---DOCUMENT SEPARATOR---\n\n"
    ((docs.map Doc.full_text).filter (fun t => decide (t ≠ "")))

/-- The unified profile dict returned by DocumentAggregator.aggregate_profile. -/
structure Profile where
  name : String
  full_text : String
  years_experience : ℚ
  skills : List String
  skill_count : Nat
  certification_count : Nat
  paper_count : Int
  patent_count : Int
  research_titles : List String
  research_summary : String
  blog_post_count : Int
  community_answers : Int
  upvotes : Int
  github_repos : Int
  github_stars : Int
  github_commits : Int
  top_topics : List String
  document_count : Nat
  source_types : List String

/-- DocumentAggregator._empty_profile. -/
def empty_profile : Profile where
  name := "Unknown"
  full_text := ""
  years_experience := 0
  skills := []
  skill_count := 0
  certification_count := 0
  paper_count := 0
  patent_count := 0
  research_titles := []
  research_summary := ""
  blog_post_count := 0
  community_answers := 0
  upvotes := 0
  github_repos := 0
  github_stars := 0
  github_commits := 0
  top_topics := []
  document_count := 0
  source_types := []

/-- DocumentAggregator.aggregate_profile. Returns the empty profile on an
empty document list, otherwise merges every component; a total function, no
error is ever raised (source types of the documents are deduplicated in
first-occurrence order, modelling list(set(..))). -/
def aggregate_profile (docs : List Doc) : Profile :=
  if docs.isEmpty then empty_profile
  else
    { name := resolve_name docs
      full_text := combined_text docs
      years_experience := merge_experience docs
      skills := merge_skills docs
      skill_count := (merge_skills docs).length
      certification_count := merge_certifications docs
      paper_count := (docs.map Doc.paper_count).sum
      patent_count := (docs.map Doc.patent_count).sum
      research_titles := merge_research_titles docs
      research_summary := merge_research_summary docs
      blog_post_count := (docs.map Doc.blog_post_count).sum
      community_answers := (docs.map Doc.community_answers).sum
      upvotes := (docs.map Doc.upvotes).sum
      github_repos := (docs.map Doc.github_repos).sum
      github_stars := (docs.map Doc.github_stars).sum
      github_commits := (docs.map Doc.github_commits).sum
      top_topics := merge_topics docs
      document_count := docs.length
      source_types := dedup_first_seen (docs.map (fun d => d.source_type.getD "unknown")) }

/-! ## EmbeddingEncoder (matcher.py and embedding_service.py)

Both encoders delegate to an external sentence-transformer model; the model
call is an opaque parameter that either yields a vector or fails, so that a
model failure (which the Python code lets propagate) is an Except.error. -/

/-- SemanticMatcher.encode_document: empty or near-empty text (fewer than 10
characters once stripped) yields the 384-dimensional zero vector without
calling the model; otherwise the model is called and its failure propagates. -/
def encode_document (model : String → Except String (List ℚ)) (text : String) :
    Except String (List ℚ) :=
  if text = "" ∨ (pyStrip text).length < 10 then Except.ok (List.replicate 384 0)
  else model text

/-- EmbeddingService.generate_embedding: raises RuntimeError when the service
is not initialized, raises ValueError("Text cannot be empty") on empty or
whitespace-only text, and otherwise calls the model, re-raising its failure. -/
def generate_embedding (ready : Bool) (model : String → Except String (List ℚ))
    (text : String) : Except String (List ℚ) :=
  if !ready then Except.error "Embedding service not initialized"
  else if text = "" ∨ pyStrip text = "" then Except.error "Text cannot be empty"
  else model text

/-! ## DatabaseService (database_service.py)

One row of the experts table joined 1-1 with its profiles row (the join on
e.id = p.id; role comes from profiles). The store is the list of rows in
creation order. Display-only columns of the SELECT list that no claim reads
are omitted; availability is the boolean the SELECT derives from the jsonb
array. Timestamps are rationals. -/

structure Expert where
  id : String
  role : String := "expert"
  embedding : Option (List ℚ) := none
  embedding_text : Option String := none
  embedding_updated_at : Option ℚ := none
  updated_at : ℚ := 0
  created_at : ℚ := 0
  domains : List String := []
  hourly_rate_advisory : ℚ := 0
  vetting_status : String := ""
  rating : ℚ := 0
  availability : Bool := false
deriving DecidableEq

/-- Staleness predicate of get_experts_needing_embeddings:
embedding IS NULL OR embedding_updated_at IS NULL OR
embedding_updated_at < updated_at. -/
def needs_embedding (e : Expert) : Bool :=
  match e.embedding, e.embedding_updated_at with
  | none, _ => true
  | some _, none => true
  | some _, some t => decide (t < e.updated_at)

/-- DatabaseService.get_experts_needing_embeddings: the stale rows, ordered by
created_at ascending. -/
def get_experts_needing_embeddings (store : List Expert) : List Expert :=
  sort_by_key_asc Expert.created_at (store.filter needs_embedding)

/-- DatabaseService.update_expert_embedding: set embedding, embedding_text and
embedding_updated_at = NOW() on every row with the given id (updated_at is not
touched). now is the write timestamp. -/
def update_expert_embedding (store : List Expert) (expert_id : String)
    (emb : List ℚ) (text : String) (now : ℚ) : List Expert :=
  store.map (fun e =>
    if e.id = expert_id then
      { e with embedding := some emb, embedding_text := some text,
               embedding_updated_at := some now }
    else e)

/-- Optional structured filters of search_similar_experts. -/
structure SearchFilters where
  domain : Option String := none
  min_hourly_rate : Option ℚ := none
  max_hourly_rate : Option ℚ := none
  vetting_status : Option String := none
  min_rating : Option ℚ := none
  availability : Option Bool := none

/-- Conjunction of the filter clauses appended to the WHERE of
search_similar_experts. Each clause is appended only when the Python value is
truthy (so a 0 rate, 0 rating or empty string leaves its clause off;
availability uses an explicit is-not-None test). -/
def filters_pass (fs : SearchFilters) (e : Expert) : Bool :=
  (match fs.domain with
   | some d => if d = "" then true else e.domains.contains d
   | none => true) &&
  (match fs.min_hourly_rate with
   | some r => if r = 0 then true else decide (r ≤ e.hourly_rate_advisory)
   | none => true) &&
  (match fs.max_hourly_rate with
   | some r => if r = 0 then true else decide (e.hourly_rate_advisory ≤ r)
   | none => true) &&
  (match fs.vetting_status with
   | some s => if s = "" then true else decide (e.vetting_status = s)
   | none => true) &&
  (match fs.min_rating with
   | some r => if r = 0 then true else decide (r ≤ e.rating)
   | none => true) &&
  (match fs.availability with
   | some b => e.availability == b
   | none => true)

/-- One candidate row of the search query: kept only when the embedding is
non-null, the joined profile role is the literal expert, the similarity score
1 - (embedding <=> query) reaches the threshold, and every active filter
clause holds. sim is the external pgvector similarity expression. -/
def score_row (sim : List ℚ → List ℚ → ℚ) (q : List ℚ) (threshold : ℚ)
    (fs : SearchFilters) (e : Expert) : Option (Expert × ℚ) :=
  match e.embedding with
  | none => none
  | some v =>
    if e.role = "expert" ∧ threshold ≤ sim q v ∧ filters_pass fs e = true then
      some (e, sim q v)
    else none

/-- Rows surviving the WHERE clause of search_similar_experts, in table
(creation) order. -/
def scored_rows (sim : List ℚ → List ℚ → ℚ) (store : List Expert) (q : List ℚ)
    (threshold : ℚ) (fs : SearchFilters) : List (Expert × ℚ) :=
  store.filterMap (score_row sim q threshold fs)

/-- One admissible execution of DatabaseService.search_similar_experts:
WHERE-filtered rows, ORDER BY similarity_score DESC realised as a stable sort
of the creation-ordered scan, LIMIT limit. The engine does not promise this
particular tie order (see admissible_search_output, the query's actual
guarantee); this function serves for concrete evaluation and for properties
that are insensitive to the order of equal scores. -/
def search_similar_experts (sim : List ℚ → List ℚ → ℚ) (store : List Expert)
    (q : List ℚ) (limit : Nat) (threshold : ℚ) (fs : SearchFilters) :
    List (Expert × ℚ) :=
  (sort_by_key_desc Prod.snd (scored_rows sim store q threshold fs)).take limit

/-- The guarantee PostgreSQL gives for the search query: ORDER BY
similarity_score DESC produces some score-descending permutation of the
WHERE-filtered rows - the relative order of rows with equal
similarity_score is unspecified, since the sort is not stable and the query
has no secondary sort key - and LIMIT returns a prefix of it. out is a
possible result of search_similar_experts exactly when this relation holds. -/
def admissible_search_output (sim : List ℚ → List ℚ → ℚ) (store : List Expert)
    (q : List ℚ) (limit : Nat) (threshold : ℚ) (fs : SearchFilters)
    (out : List (Expert × ℚ)) : Prop :=
  ∃ rows : List (Expert × ℚ),
    rows ~ scored_rows sim store q threshold fs ∧
    rows.Pairwise (fun a b => b.2 ≤ a.2) ∧
    out = rows.take limit

/-! ## Batch embedding job (jobs/generate_embeddings.py)

A row fetched by get_experts_needing_embeddings as the job sees it:
experience_summary is aliased to bio by the SQL, so the dict has no separate
experience_summary key. patents, papers and products are rendered into the
f-string, so only their truthiness and text matter. -/

structure BatchExpert where
  id : String
  name : Option String := none
  bio : Option String := none
  skills : List String := []
  domains : List String := []
  expertise_areas : List String := []
  patents : Option String := none
  papers : Option String := none
  products : Option String := none

/-- EmbeddingService.build_expert_text: the truthy parts joined with the
separator. An Option field that is None or an empty string is skipped, as is
an empty list (Python truthiness). -/
def build_expert_text (e : BatchExpert) : String :=
  let opt_part (label : String) : Option String → List String
    | some v => if v = "" then [] else [label ++ v]
    | none => []
  let list_part (label : String) (l : List String) : List String :=
    if l = [] then [] else [label ++ String.intercalate ", " l]
  String.intercalate " | "
    (opt_part "Name: " e.name ++
     opt_part "Experience: " e.bio ++
     list_part "Skills: " e.skills ++
     list_part "Domains: " e.domains ++
     list_part "Expertise Areas: " e.expertise_areas ++
     opt_part "Patents: " e.patents ++
     opt_part "Publications: " e.papers ++
     opt_part "Products: " e.products)

/-- The four counters of the batch job, in the order of the returned dict. -/
structure Tally where
  processed : Nat
  updated : Nat
  errors : Nat
  skipped : Nat
deriving DecidableEq

/-- Body of the per-expert loop of generate_all_expert_embeddings, including
its try/except: a skipped expert (no content) counts skipped and processed; a
failure of generate_embedding or of the database write is caught and counts
errors and processed; a successful update counts updated and processed, and
then, when processed has become a multiple of 5, the progress line evaluates
(processed / len(experts) * 100).toFixed(1), a JavaScript method missing on a
Python float, so an AttributeError is raised inside the try and the handler
additionally counts errors and processed for the same expert. embed is
generate_embedding applied to the built text; db_write is
update_expert_embedding keyed by expert id. -/
def process_expert (embed : String → Except String (List ℚ))
    (db_write : String → List ℚ → String → Except String Unit)
    (t : Tally) (e : BatchExpert) : Tally :=
  let text := build_expert_text e
  if pyStrip text = "" then
    { t with skipped := t.skipped + 1, processed := t.processed + 1 }
  else
    match embed text with
    | Except.error _ => { t with errors := t.errors + 1, processed := t.processed + 1 }
    | Except.ok emb =>
      match db_write e.id emb text with
      | Except.error _ => { t with errors := t.errors + 1, processed := t.processed + 1 }
      | Except.ok _ =>
        let t1 := { t with updated := t.updated + 1, processed := t.processed + 1 }
        if t1.processed % 5 = 0 then
          { t1 with errors := t1.errors + 1, processed := t1.processed + 1 }
        else t1

/-- The whole per-expert loop of generate_all_expert_embeddings. -/
def run_batch (embed : String → Except String (List ℚ))
    (db_write : String → List ℚ → String → Except String Unit)
    (experts : List BatchExpert) : Tally :=
  experts.foldl (process_expert embed db_write) ⟨0, 0, 0, 0⟩

/-- generate_all_expert_embeddings, after services are initialized and the
stale experts fetched: the empty fetch returns the zero tally early; otherwise
the loop runs and the final summary unconditionally evaluates
a str.repeat(60) call, a JavaScript method missing on Python str, so an
AttributeError escapes the outer try (which re-raises) and the tally built by
the loop is never returned. -/
def generate_all_expert_embeddings (embed : String → Except String (List ℚ))
    (db_write : String → List ℚ → String → Except String Unit)
    (experts : List BatchExpert) : Except String Tally :=
  if experts.isEmpty then Except.ok ⟨0, 0, 0, 0⟩
  else
    let _ := run_batch embed db_write experts
    Except.error "AttributeError: str object has no attribute repeat"

/-! ## Concrete instances used as test inputs

The three-document scenario of the specification. -/

def resume_doc : Doc :=
  { source_type := some "resume", skills := ["Python", "React"], years_experience := some 2 }

def portfolio_doc : Doc :=
  { source_type := some "portfolio", skills := ["python", "AWS"], years_experience := some 1.5 }

def github_doc : Doc :=
  { source_type := some "github", github_stars := 10, github_repos := 5 }

def scenario_docs : List Doc := [resume_doc, portfolio_doc, github_doc]

/-- Two documents whose name key is missing and one with a real name: the
missing keys vote Unknown. -/
def name_cdocs : List Doc := [{ }, { }, { name := some "Alice" }]

/-- A stored expert whose embedding predates its last content update. -/
def stale_expert : Expert :=
  { id := "s1", embedding := some [1], embedding_updated_at := some 0,
    updated_at := 1, created_at := 0 }

/-- A searchable expert row. -/
def expert_a : Expert :=
  { id := "a", embedding := some [1, 0], created_at := 1, updated_at := 1 }

/-- A row whose joined profile role is not the literal expert. -/
def expert_b : Expert :=
  { id := "b", role := "member", embedding := some [1, 0], created_at := 2, updated_at := 1 }

def test_store : List Expert := [expert_a, expert_b]

/-- A second expert-role row, created after expert_a, used to exhibit a score
tie. -/
def expert_c : Expert :=
  { id := "c", embedding := some [0, 1], created_at := 2, updated_at := 1 }

/-- A similarity oracle usable in closed evaluations. -/
def const_sim : List ℚ → List ℚ → ℚ := fun _ _ => 1

/-- A model that always produces a vector. -/
def model_const_one : String → Except String (List ℚ) :=
  fun _ => Except.ok (List.replicate 384 1)

/-- A model whose encode call fails. -/
def model_fails : String → Except String (List ℚ) :=
  fun _ => Except.error "model failure"

def batch_expert_ada : BatchExpert := { id := "e1", name := some "Ada" }

def batch_expert_bob : BatchExpert := { id := "e2", name := some "Bob" }

/-- An embedding call that always succeeds. -/
def embed_ok : String → Except String (List ℚ) := fun _ => Except.ok [1]

/-- A database write that always succeeds. -/
def db_ok : String → List ℚ → String → Except String Unit := fun _ _ _ => Except.ok ()

/-- An embedding call that fails exactly on the text built for Bob. -/
def embed_fail_bob : String → Except String (List ℚ) :=
  fun t => if t = "Name: Bob" then Except.error "model failure" else Except.ok [1]

/-! ## Helper lemmas -/

theorem mem_dedup_first_seen {α : Type} [DecidableEq α] (l : List α) (x : α) :
    x ∈ dedup_first_seen l ↔ x ∈ l := by
  induction l with
  | nil => simp [dedup_first_seen]
  | cons a as ih =>
    simp only [dedup_first_seen, List.mem_cons, List.mem_filter, decide_eq_true_eq]
    constructor
    · rintro (rfl | ⟨hx, _⟩)
      · exact Or.inl rfl
      · exact Or.inr (ih.mp hx)
    · rintro (rfl | hx)
      · exact Or.inl rfl
      · by_cases hxa : x = a
        · exact Or.inl hxa
        · exact Or.inr ⟨ih.mpr hx, hxa⟩

theorem nodup_dedup_first_seen {α : Type} [DecidableEq α] (l : List α) :
    (dedup_first_seen l).Nodup := by
  induction l with
  | nil => simp [dedup_first_seen]
  | cons a as ih =>
    refine List.nodup_cons.mpr ⟨?_, ih.filter _⟩
    intro hmem
    have := (List.mem_filter.mp hmem).2
    simp at this

theorem mem_sort_by_key_desc {α β : Type} [LinearOrder β] (key : α → β) (l : List α)
    (x : α) : x ∈ sort_by_key_desc key l ↔ x ∈ l :=
  List.mem_insertionSort _

theorem perm_sort_by_key_desc {α β : Type} [LinearOrder β] (key : α → β) (l : List α) :
    sort_by_key_desc key l ~ l :=
  List.perm_insertionSort _ l

theorem sorted_sort_by_key_desc {α β : Type} [LinearOrder β] (key : α → β) (l : List α) :
    (sort_by_key_desc key l).Pairwise (fun a b => key b ≤ key a) :=
  List.sorted_insertionSort _ l

theorem filter_key_orderedInsert {α β : Type} [LinearOrder β] (key : α → β) (s : β)
    (a : α) (l : List α) :
    (l.orderedInsert (fun x y => key y ≤ key x) a).filter (fun x => decide (key x = s)) =
      if key a = s then a :: l.filter (fun x => decide (key x = s))
      else l.filter (fun x => decide (key x = s)) := by
  induction l with
  | nil => by_cases h : key a = s <;> simp [List.orderedInsert, List.filter_cons, h]
  | cons b t ih =>
    by_cases hr : key b ≤ key a
    · rw [List.orderedInsert, if_pos hr]
      by_cases ha : key a = s <;> simp [List.filter_cons, ha]
    · rw [List.orderedInsert, if_neg hr]
      have hba : key a < key b := not_le.mp hr
      by_cases ha : key a = s
      · have hb : ¬ (key b = s) := fun h => absurd (h.trans ha.symm) (ne_of_gt hba)
        simp [List.filter_cons, hb, ih, ha]
      · by_cases hb : key b = s <;> simp [List.filter_cons, hb, ih, ha]

theorem filter_key_sort_by_key_desc {α β : Type} [LinearOrder β] (key : α → β) (s : β)
    (l : List α) :
    (sort_by_key_desc key l).filter (fun x => decide (key x = s)) =
      l.filter (fun x => decide (key x = s)) := by
  induction l with
  | nil => rfl
  | cons a t ih =>
    show ((t.insertionSort _).orderedInsert _ a).filter _ = _
    rw [filter_key_orderedInsert]
    by_cases h : key a = s <;>
      simpa [List.filter_cons, h] using congrArg (fun l => if key a = s then a :: l else l) ih

theorem py_max_by_mem {α β : Type} [LinearOrder β] (key : α → β) (x : α) (xs : List α) :
    py_max_by key x xs ∈ x :: xs := by
  unfold py_max_by
  induction xs generalizing x with
  | nil => simp
  | cons c cs ih =>
    rw [List.foldl_cons]
    show cs.foldl (fun best c => if key best < key c then c else best)
      (if key x < key c then c else x) ∈ x :: c :: cs
    have h := ih (if key x < key c then c else x)
    by_cases hxc : key x < key c
    · rw [if_pos hxc] at h ⊢
      exact List.mem_cons_of_mem x h
    · rw [if_neg hxc] at h ⊢
      rcases List.mem_cons.mp h with heq | hmem
      · rw [heq]
        exact List.mem_cons_self _ _
      · exact List.mem_cons_of_mem _ (List.mem_cons_of_mem _ hmem)

theorem py_max_by_le {α β : Type} [LinearOrder β] (key : α → β) (x : α) (xs : List α) :
    ∀ a ∈ x :: xs, key a ≤ key (py_max_by key x xs) := by
  unfold py_max_by
  induction xs generalizing x with
  | nil =>
    intro a ha
    rw [List.mem_singleton.mp ha]
    exact le_refl _
  | cons c cs ih =>
    intro a ha
    rw [List.foldl_cons]
    show key a ≤ key (cs.foldl (fun best c => if key best < key c then c else best)
      (if key x < key c then c else x))
    have hx : key x ≤ key (if key x < key c then c else x) := by
      by_cases hxc : key x < key c
      · rw [if_pos hxc]; exact le_of_lt hxc
      · rw [if_neg hxc]
    have hc : key c ≤ key (if key x < key c then c else x) := by
      by_cases hxc : key x < key c
      · rw [if_pos hxc]
      · rw [if_neg hxc]; exact not_lt.mp hxc
    have ih' := ih (if key x < key c then c else x)
    rcases List.mem_cons.mp ha with rfl | ha2
    · exact le_trans hx (ih' _ (List.mem_cons_self _ _))
    · rcases List.mem_cons.mp ha2 with rfl | ha3
      · exact le_trans hc (ih' _ (List.mem_cons_self _ _))
      · exact ih' a (List.mem_cons_of_mem _ ha3)

theorem le_foldl_max (y : ℚ) (ys : List ℚ) : ∀ a ∈ y :: ys, a ≤ ys.foldl max y := by
  induction ys generalizing y with
  | nil =>
    intro a ha
    rw [List.mem_singleton.mp ha]
    exact le_refl _
  | cons z zs ih =>
    intro a ha
    rw [List.foldl_cons]
    rcases List.mem_cons.mp ha with rfl | ha2
    · exact le_trans (le_max_left a z) (ih (max a z) _ (List.mem_cons_self _ _))
    · rcases List.mem_cons.mp ha2 with rfl | ha3
      · exact le_trans (le_max_right y a) (ih (max y a) _ (List.mem_cons_self _ _))
      · exact ih (max y z) a (List.mem_cons_of_mem _ ha3)

theorem foldl_max_mem (y : ℚ) (ys : List ℚ) : ys.foldl max y ∈ y :: ys := by
  induction ys generalizing y with
  | nil => simp
  | cons z zs ih =>
    rw [List.foldl_cons]
    rcases List.mem_cons.mp (ih (max y z)) with heq | hmem
    · rw [heq]
      rcases max_choice y z with hc | hc <;> rw [hc]
      · exact List.mem_cons_self _ _
      · exact List.mem_cons_of_mem _ (List.mem_cons_self _ _)
    · exact List.mem_cons_of_mem _ (List.mem_cons_of_mem _ hmem)

theorem counter_items_fst (l : List String) :
    (counter_items l).map Prod.fst = dedup_first_seen l := by
  unfold counter_items
  rw [List.map_map]
  have h : (Prod.fst ∘ fun k => (k, l.count k)) = id := rfl
  rw [h, List.map_id]

theorem mem_counter_items (l : List String) (p : String × Nat)
    (hp : p ∈ counter_items l) : p.2 = l.count p.1 ∧ p.1 ∈ dedup_first_seen l := by
  simp only [counter_items, List.mem_map] at hp
  obtain ⟨k, hk, rfl⟩ := hp
  exact ⟨rfl, hk⟩

theorem mem_most_common (l : List String) (x : String) :
    x ∈ most_common l ↔ x ∈ l := by
  unfold most_common
  constructor
  · intro hx
    obtain ⟨p, hp, rfl⟩ := List.mem_map.mp hx
    have hp2 := (mem_sort_by_key_desc _ _ _).mp hp
    exact (mem_dedup_first_seen _ _).mp (mem_counter_items _ _ hp2).2
  · intro hx
    have hx2 := (mem_dedup_first_seen l x).mpr hx
    refine List.mem_map.mpr ⟨(x, l.count x), ?_, rfl⟩
    exact (mem_sort_by_key_desc _ _ _).mpr
      (List.mem_map.mpr ⟨x, hx2, rfl⟩)

theorem mem_merge_skills (docs : List Doc) (x : String) :
    x ∈ merge_skills docs ↔ ∃ d ∈ docs, ∃ s ∈ d.skills, pyLower s = x := by
  rw [merge_skills, mem_most_common]
  simp only [lowered_skills, all_skills, List.mem_map, List.mem_flatMap]
  constructor
  · rintro ⟨s, ⟨d, hd, hs⟩, rfl⟩
    exact ⟨d, hd, s, hs, rfl⟩
  · rintro ⟨d, hd, s, hs, rfl⟩
    exact ⟨s, ⟨d, hd, hs⟩, rfl⟩

theorem nodup_merge_skills (docs : List Doc) : (merge_skills docs).Nodup := by
  unfold merge_skills most_common
  have hperm : (sort_by_key_desc Prod.snd (counter_items (lowered_skills docs))).map Prod.fst ~
      (counter_items (lowered_skills docs)).map Prod.fst :=
    (perm_sort_by_key_desc _ _).map _
  rw [counter_items_fst] at hperm
  exact hperm.nodup_iff.mpr (nodup_dedup_first_seen _)

theorem pairwise_merge_skills (docs : List Doc) :
    (merge_skills docs).Pairwise
      (fun a b => (lowered_skills docs).count b ≤ (lowered_skills docs).count a) := by
  unfold merge_skills most_common
  rw [List.pairwise_map]
  have hs := sorted_sort_by_key_desc Prod.snd (counter_items (lowered_skills docs))
  refine hs.imp_of_mem ?_
  intro a b ha hb hab
  have ha2 := (mem_counter_items _ a ((mem_sort_by_key_desc _ _ _).mp ha)).1
  have hb2 := (mem_counter_items _ b ((mem_sort_by_key_desc _ _ _).mp hb)).1
  rw [← ha2, ← hb2]
  exact hab

theorem merge_skills_ties (docs : List Doc) (n : Nat) :
    (merge_skills docs).filter (fun k => decide ((lowered_skills docs).count k = n)) =
      (dedup_first_seen (lowered_skills docs)).filter
        (fun k => decide ((lowered_skills docs).count k = n)) := by
  unfold merge_skills most_common
  rw [List.filter_map]
  have hcongr : ∀ q ∈ sort_by_key_desc Prod.snd (counter_items (lowered_skills docs)),
      ((fun k => decide ((lowered_skills docs).count k = n)) ∘ Prod.fst) q =
        (fun (q : String × Nat) => decide (q.2 = n)) q := by
    intro q hq
    have h2 := (mem_counter_items _ q ((mem_sort_by_key_desc _ _ _).mp hq)).1
    simp [Function.comp, h2]
  rw [List.filter_congr hcongr, filter_key_sort_by_key_desc Prod.snd n]
  rw [← counter_items_fst, List.filter_map]
  congr 1
  apply List.filter_congr
  intro q hq
  have h2 := (mem_counter_items _ q hq).1
  simp [Function.comp, h2]

theorem resolve_votes_mem_max (v : String) (vs : List String) :
    resolve_votes (v :: vs) ∈ (v :: vs) ∧
      ∀ c ∈ (v :: vs), (v :: vs).count c ≤ (v :: vs).count (resolve_votes (v :: vs)) := by
  have hd : dedup_first_seen (v :: vs) =
      v :: (dedup_first_seen vs).filter (fun y => decide (y ≠ v)) := rfl
  have hres : resolve_votes (v :: vs) =
      py_max_by (fun x => (v :: vs).count x) v
        ((dedup_first_seen vs).filter (fun y => decide (y ≠ v))) := rfl
  constructor
  · have h := py_max_by_mem (fun x => (v :: vs).count x) v
      ((dedup_first_seen vs).filter (fun y => decide (y ≠ v)))
    rw [← hd] at h
    rw [hres]
    exact (mem_dedup_first_seen _ _).mp h
  · intro c hc
    have hc2 : c ∈ dedup_first_seen (v :: vs) := (mem_dedup_first_seen _ _).mpr hc
    rw [hd] at hc2
    rw [hres]
    exact py_max_by_le (fun x => (v :: vs).count x) v
      ((dedup_first_seen vs).filter (fun y => decide (y ≠ v))) c hc2

theorem merge_experience_cons (d : Doc) (ds : List Doc) :
    merge_experience (d :: ds) =
      (ds.map (fun x => x.years_experience.getD 0)).foldl max (d.years_experience.getD 0) := rfl

theorem score_row_some (sim : List ℚ → List ℚ → ℚ) (q : List ℚ) (threshold : ℚ)
    (fs : SearchFilters) (e : Expert) (p : Expert × ℚ)
    (h : score_row sim q threshold fs e = some p) :
    p.1 = e ∧ threshold ≤ p.2 ∧ e.embedding ≠ none ∧ e.role = "expert" ∧
      filters_pass fs e = true := by
  cases hv : e.embedding with
  | none =>
    simp only [score_row, hv] at h
    exact absurd h (by simp)
  | some v =>
    simp only [score_row, hv] at h
    by_cases hc : e.role = "expert" ∧ threshold ≤ sim q v ∧ filters_pass fs e = true
    · rw [if_pos hc] at h
      have hp : p = (e, sim q v) := by injection h with h2; exact h2.symm
      subst hp
      exact ⟨rfl, hc.2.1, by simp [hv], hc.1, hc.2.2⟩
    · rw [if_neg hc] at h
      exact absurd h (by simp)

theorem scored_rows_fst_sublist (sim : List ℚ → List ℚ → ℚ) (store : List Expert)
    (q : List ℚ) (threshold : ℚ) (fs : SearchFilters) :
    (scored_rows sim store q threshold fs).map Prod.fst <+ store := by
  induction store with
  | nil => simp [scored_rows]
  | cons e es ih =>
    unfold scored_rows at ih ⊢
    cases h : score_row sim q threshold fs e with
    | none =>
      rw [List.filterMap_cons_none h]
      exact ih.cons e
    | some p =>
      rw [List.filterMap_cons_some h, List.map_cons, (score_row_some _ _ _ _ _ _ h).1]
      exact ih.cons₂ e

theorem mem_scored_rows (sim : List ℚ → List ℚ → ℚ) (store : List Expert) (q : List ℚ)
    (threshold : ℚ) (fs : SearchFilters) (p : Expert × ℚ)
    (hp : p ∈ scored_rows sim store q threshold fs) :
    p.1 ∈ store ∧ threshold ≤ p.2 ∧ p.1.embedding ≠ none ∧ p.1.role = "expert" ∧
      filters_pass fs p.1 = true := by
  obtain ⟨e, he, hsr⟩ := List.mem_filterMap.mp hp
  obtain ⟨hfst, hthr, hemb, hrole, hfil⟩ := score_row_some _ _ _ _ _ _ hsr
  subst hfst
  exact ⟨he, hthr, hemb, hrole, hfil⟩

theorem mem_get_experts_needing (store : List Expert) (e : Expert) :
    e ∈ get_experts_needing_embeddings store ↔ e ∈ store ∧ needs_embedding e = true := by
  unfold get_experts_needing_embeddings sort_by_key_asc
  rw [List.mem_insertionSort, List.mem_filter]

/-! ## Claim theorems -/

/-- C7: aggregate_profile applied to the empty document list returns the
documented all-zero/empty profile: name Unknown, empty combined text, zero
years of experience, empty skills with skill_count 0, every count field 0,
empty research_titles and top_topics, document_count 0 and empty
source_types; the model is a total function, so this is a normal return
value, not an error. -/
theorem aggregate_profile_empty_is_empty_profile :
    (aggregate_profile []).name = "Unknown" ∧
    (aggregate_profile []).full_text = "" ∧
    (aggregate_profile []).years_experience = 0 ∧
    (aggregate_profile []).skills = [] ∧
    (aggregate_profile []).skill_count = 0 ∧
    (aggregate_profile []).certification_count = 0 ∧
    (aggregate_profile []).paper_count = 0 ∧
    (aggregate_profile []).patent_count = 0 ∧
    (aggregate_profile []).research_titles = [] ∧
    (aggregate_profile []).research_summary = "" ∧
    (aggregate_profile []).blog_post_count = 0 ∧
    (aggregate_profile []).community_answers = 0 ∧
    (aggregate_profile []).upvotes = 0 ∧
    (aggregate_profile []).github_repos = 0 ∧
    (aggregate_profile []).github_stars = 0 ∧
    (aggregate_profile []).github_commits = 0 ∧
    (aggregate_profile []).top_topics = [] ∧
    (aggregate_profile []).document_count = 0 ∧
    (aggregate_profile []).source_types = [] :=
  ⟨rfl, rfl, rfl, rfl, rfl, rfl, rfl, rfl, rfl, rfl, rfl, rfl, rfl, rfl, rfl, rfl,
   rfl, rfl, rfl⟩

/-- C2: the years_experience of the aggregated profile is the maximum of the
documents' years_experience values, a document missing the field contributing
0: it is 0 on the empty list, an upper bound of every contribution, and
attained by some document whenever the list is non-empty. -/
theorem aggregate_profile_years_max (docs : List Doc) :
    (docs = [] → (aggregate_profile docs).years_experience = 0) ∧
    (∀ d ∈ docs, d.years_experience.getD 0 ≤ (aggregate_profile docs).years_experience) ∧
    (docs ≠ [] → ∃ d ∈ docs,
      (aggregate_profile docs).years_experience = d.years_experience.getD 0) := by
  cases docs with
  | nil =>
    refine ⟨fun _ => rfl, ?_, fun h => absurd rfl h⟩
    intro d hd
    exact absurd hd (List.not_mem_nil d)
  | cons d0 ds =>
    have hy : (aggregate_profile (d0 :: ds)).years_experience = merge_experience (d0 :: ds) := rfl
    refine ⟨fun h => absurd h (List.cons_ne_nil d0 ds), ?_, fun _ => ?_⟩
    · intro d hd
      rw [hy, merge_experience_cons]
      have hm : d.years_experience.getD 0 ∈
          (d0 :: ds).map (fun x => x.years_experience.getD 0) :=
        List.mem_map_of_mem (fun x => x.years_experience.getD 0) hd
      exact le_foldl_max _ _ _ hm
    · rw [hy, merge_experience_cons]
      have hmem : (ds.map (fun x => x.years_experience.getD 0)).foldl max
          (d0.years_experience.getD 0) ∈
          (d0 :: ds).map (fun x => x.years_experience.getD 0) :=
        foldl_max_mem (d0.years_experience.getD 0) (ds.map (fun x => x.years_experience.getD 0))
      obtain ⟨d, hd, he⟩ := List.mem_map.mp hmem
      exact ⟨d, hd, he.symm⟩

/-- Witness for C2: at the three-document scenario the maximum is attained by
a document, and the empty list yields 0. -/
theorem aggregate_profile_years_max_witness :
    (scenario_docs ≠ [] ∧ ∃ d ∈ scenario_docs,
      (aggregate_profile scenario_docs).years_experience = d.years_experience.getD 0) ∧
    (aggregate_profile []).years_experience = 0 :=
  ⟨⟨List.cons_ne_nil _ _,
    (aggregate_profile_years_max scenario_docs).2.2 (List.cons_ne_nil _ _)⟩,
   (aggregate_profile_years_max []).1 rfl⟩

/-- C6 (amended): the aggregated name is a most frequent value of the name
votes, where a document with a real name (not the literal Unknown) votes its
name, a document whose name key is missing votes the string Unknown, and a
document whose name is the literal Unknown votes nothing; with no votes the
result is Unknown. (The specification claim that only non-Unknown names are
collected fails: a missing name key votes Unknown, see the counterexample;
which tied candidate wins depends on Python set iteration order, so only
membership and maximality are asserted.) -/
theorem aggregate_profile_name_vote (docs : List Doc) :
    (name_votes docs = [] → (aggregate_profile docs).name = "Unknown") ∧
    (name_votes docs ≠ [] →
      (aggregate_profile docs).name ∈ name_votes docs ∧
      ∀ c ∈ name_votes docs,
        (name_votes docs).count c ≤ (name_votes docs).count (aggregate_profile docs).name) := by
  cases docs with
  | nil => exact ⟨fun _ => rfl, fun h => absurd rfl h⟩
  | cons d0 ds =>
    have hn : (aggregate_profile (d0 :: ds)).name = resolve_votes (name_votes (d0 :: ds)) := rfl
    constructor
    · intro h
      rw [hn, h]
      rfl
    · intro h
      obtain ⟨v, vs, hv⟩ : ∃ v vs, name_votes (d0 :: ds) = v :: vs := by
        cases hnv : name_votes (d0 :: ds) with
        | nil => exact absurd hnv h
        | cons v vs => exact ⟨v, vs, rfl⟩
      rw [hn, hv]
      exact resolve_votes_mem_max v vs

/-- Witness for C6: on the counterexample documents the votes are non-empty
and the resolved name is one of them. -/
theorem aggregate_profile_name_vote_witness :
    name_votes name_cdocs ≠ [] ∧
    (aggregate_profile name_cdocs).name ∈ name_votes name_cdocs :=
  ⟨by decide, ((aggregate_profile_name_vote name_cdocs).2 (by decide)).1⟩

/-- C6 counterexample: with two documents missing the name key and one
document named Alice, the aggregated name is Unknown - the missing keys each
vote Unknown and outnumber Alice - while the claim requires the most frequent
non-Unknown name, Alice. -/
theorem aggregate_profile_name_counterexample :
    (aggregate_profile name_cdocs).name = "Unknown" ∧
    (aggregate_profile name_cdocs).name ≠ "Alice" :=
  ⟨by decide, by decide⟩

/-- C1 (amended): the skills list of the aggregated profile contains one
entry per case-insensitively distinct skill, but in lower-cased form - the
Counter in merge_skills is built from skill.lower(), so the first-seen
canonical casing is not preserved; entries are ordered by descending
cross-document frequency of the lower-cased form with ties kept in first-seen
order; on the three-document scenario the list is the lower-cased
["python","react","aws"], not ["Python","React","AWS"]. -/
theorem aggregate_profile_skills_ranked (docs : List Doc) :
    ((aggregate_profile docs).skills).Nodup ∧
    (∀ x, x ∈ (aggregate_profile docs).skills ↔
      ∃ d ∈ docs, ∃ s ∈ d.skills, pyLower s = x) ∧
    ((aggregate_profile docs).skills).Pairwise
      (fun a b => (lowered_skills docs).count b ≤ (lowered_skills docs).count a) ∧
    (∀ n : Nat,
      ((aggregate_profile docs).skills).filter
          (fun k => decide ((lowered_skills docs).count k = n)) =
        (dedup_first_seen (lowered_skills docs)).filter
          (fun k => decide ((lowered_skills docs).count k = n))) ∧
    (aggregate_profile scenario_docs).skills = ["python", "react", "aws"] := by
  cases docs with
  | nil =>
    refine ⟨List.nodup_nil, ?_, List.Pairwise.nil, fun n => rfl, by decide⟩
    intro x
    constructor
    · intro hx
      exact absurd hx (List.not_mem_nil x)
    · rintro ⟨d, hd, _⟩
      exact absurd hd (List.not_mem_nil d)
  | cons d0 ds =>
    have hs : (aggregate_profile (d0 :: ds)).skills = merge_skills (d0 :: ds) := rfl
    rw [hs]
    exact ⟨nodup_merge_skills _, fun x => mem_merge_skills _ x, pairwise_merge_skills _,
      fun n => merge_skills_ties _ n, by decide⟩

/-- Witness for C1: the lower-cased skill python, contributed by the resume
document's skill Python, is in the scenario's aggregated skills list. -/
theorem aggregate_profile_skills_ranked_witness :
    "python" ∈ (aggregate_profile scenario_docs).skills :=
  ((aggregate_profile_skills_ranked scenario_docs).2.1 "python").mpr
    ⟨resume_doc, List.mem_cons_self _ _, "Python", List.mem_cons_self _ _, by decide⟩

/-- C1 counterexample: on the specification's own scenario (resume skills
Python and React, portfolio skills python and AWS, github document) the
merged skills list is the lower-cased ["python","react","aws"], so it is not
["Python","React","AWS"] as the claim requires. -/
theorem aggregate_profile_skills_counterexample :
    (aggregate_profile scenario_docs).skills = ["python", "react", "aws"] ∧
    (aggregate_profile scenario_docs).skills ≠ ["Python", "React", "AWS"] :=
  ⟨by decide, by decide⟩

/-- C9: the set of skills of aggregate_profile is monotone under appending
further documents: every skill of aggregate_profile D1 is a skill of
aggregate_profile (D1 ++ D2). -/
theorem aggregate_profile_skills_monotone (D1 D2 : List Doc) :
    (aggregate_profile D1).skills ⊆ (aggregate_profile (D1 ++ D2)).skills := by
  intro x hx
  cases D1 with
  | nil => exact absurd hx (List.not_mem_nil x)
  | cons d0 ds =>
    have h1 : x ∈ merge_skills (d0 :: ds) := hx
    obtain ⟨d, hd, s, hsk, he⟩ := (mem_merge_skills _ x).mp h1
    have h2 : x ∈ merge_skills (d0 :: (ds ++ D2)) :=
      (mem_merge_skills _ x).mpr ⟨d, List.mem_append_left D2 hd, s, hsk, he⟩
    exact h2

/-- Witness for C9: python, a skill of the resume-only aggregation, remains a
skill after appending the portfolio and github documents. -/
theorem aggregate_profile_skills_monotone_witness :
    "python" ∈ (aggregate_profile ([resume_doc] ++ [portfolio_doc, github_doc])).skills :=
  aggregate_profile_skills_monotone [resume_doc] [portfolio_doc, github_doc] (by decide)

/-- C3 (amended): every admissible result of the search query - ORDER BY
similarity_score DESC yields some score-descending permutation of the
WHERE-filtered rows, in which the order of equal scores is engine-determined
and unspecified, and LIMIT keeps a prefix - satisfies: every returned pair
meets the threshold, has a non-null embedding, passes every active
structured filter (conjunctive AND) and comes from the store; the list is
sorted by similarity_score descending; and at most limit rows are returned.
The deterministic model function search_similar_experts produces one such
admissible output. The original conjunct that ties are broken by entity
creation order is not guaranteed by the program - the query has no
secondary sort key - and is dropped; see the counterexample. -/
theorem search_results_admissible (sim : List ℚ → List ℚ → ℚ) (store : List Expert)
    (q : List ℚ) (limit : Nat) (threshold : ℚ) (fs : SearchFilters)
    (out : List (Expert × ℚ)) :
    (admissible_search_output sim store q limit threshold fs out →
      (∀ p ∈ out, threshold ≤ p.2 ∧ p.1.embedding ≠ none ∧
        filters_pass fs p.1 = true ∧ p.1 ∈ store) ∧
      out.Pairwise (fun a b => b.2 ≤ a.2) ∧
      out.length ≤ limit) ∧
    admissible_search_output sim store q limit threshold fs
      (search_similar_experts sim store q limit threshold fs) := by
  constructor
  · rintro ⟨rows, hperm, hsorted, hout⟩
    subst hout
    refine ⟨?_, ?_, ?_⟩
    · intro p hp
      have hp3 : p ∈ scored_rows sim store q threshold fs :=
        hperm.subset ((List.take_sublist _ _).subset hp)
      obtain ⟨hin, hthr, hemb, _, hfil⟩ := mem_scored_rows _ _ _ _ _ _ hp3
      exact ⟨hthr, hemb, hfil, hin⟩
    · exact hsorted.sublist (List.take_sublist _ _)
    · exact rows.length_take_le limit
  · exact ⟨sort_by_key_desc Prod.snd (scored_rows sim store q threshold fs),
      perm_sort_by_key_desc _ _, sorted_sort_by_key_desc _ _, rfl⟩

/-- Witness for C3: the model function's output on a two-row store is an
admissible result, and through the theorem it satisfies the threshold bound
and the length bound. -/
theorem search_results_admissible_witness :
    admissible_search_output const_sim test_store [0] 10 0 { }
      (search_similar_experts const_sim test_store [0] 10 0 { }) ∧
    (search_similar_experts const_sim test_store [0] 10 0 { }).length ≤ 10 ∧
    (0 : ℚ) ≤ (expert_a, (1 : ℚ)).2 :=
  have hadm : admissible_search_output const_sim test_store [0] 10 0 { }
      (search_similar_experts const_sim test_store [0] 10 0 { }) :=
    (search_results_admissible const_sim test_store [0] 10 0 { }
      (search_similar_experts const_sim test_store [0] 10 0 { })).2
  have hmem : (expert_a, (1 : ℚ)) ∈ search_similar_experts const_sim test_store [0] 10 0 { } :=
    by decide
  ⟨hadm,
   ((search_results_admissible const_sim test_store [0] 10 0 { }
      (search_similar_experts const_sim test_store [0] 10 0 { })).1 hadm).2.2,
   (((search_results_admissible const_sim test_store [0] 10 0 { }
      (search_similar_experts const_sim test_store [0] 10 0 { })).1 hadm).1 _ hmem).1⟩

/-- C3 counterexample: with two expert rows of equal similarity score, the
result that lists the later-created expert_c before the earlier-created
expert_a is an admissible execution of the query (a score-descending
permutation of the WHERE-filtered rows, within the limit), so the program
does not guarantee that ties are broken by entity creation order: here the
two scores are equal and the first returned entity was created after the
second. -/
theorem search_tie_order_counterexample :
    admissible_search_output const_sim [expert_a, expert_c] [0] 10 0 { }
      [(expert_c, 1), (expert_a, 1)] ∧
    (expert_c, (1 : ℚ)).2 = (expert_a, (1 : ℚ)).2 ∧
    expert_a.created_at < expert_c.created_at :=
  ⟨⟨[(expert_c, 1), (expert_a, 1)], List.Perm.swap (expert_a, 1) (expert_c, 1) [],
    by decide, rfl⟩, rfl, by decide⟩

/-- C10: search_similar_experts only returns entities whose joined profile
role is the literal expert, whatever the similarity oracle, query, limit,
threshold and filters are. -/
theorem search_role_expert_only (sim : List ℚ → List ℚ → ℚ) (store : List Expert)
    (q : List ℚ) (limit : Nat) (threshold : ℚ) (fs : SearchFilters) :
    ∀ p ∈ search_similar_experts sim store q limit threshold fs, p.1.role = "expert" := by
  intro p hp
  have hp2 : p ∈ (sort_by_key_desc Prod.snd (scored_rows sim store q threshold fs)).take limit :=
    hp
  have hp3 : p ∈ scored_rows sim store q threshold fs :=
    (mem_sort_by_key_desc _ _ _).mp ((List.take_sublist _ _).subset hp2)
  exact (mem_scored_rows _ _ _ _ _ _ hp3).2.2.2.1

/-- Witness for C10: the expert-role row is returned and indeed carries role
expert; its member-role sibling was filtered out. -/
theorem search_role_expert_only_witness :
    (expert_a, (1 : ℚ)) ∈ search_similar_experts const_sim test_store [0] 10 0 { } ∧
    (expert_a, (1 : ℚ)).1.role = "expert" :=
  have hmem : (expert_a, (1 : ℚ)) ∈ search_similar_experts const_sim test_store [0] 10 0 { } :=
    by decide
  ⟨hmem, search_role_expert_only const_sim test_store [0] 10 0 { } _ hmem⟩

/-- C4: get_experts_needing_embeddings returns exactly the stored entities
whose embedding is null, or whose embedding_updated_at is null or older than
the entity's own updated_at; and after update_expert_embedding writes a
vector with a current timestamp (at or after the entity's last content
update), no row with that id satisfies the staleness predicate any more. -/
theorem stale_entities_exact (store : List Expert) (expert_id : String)
    (emb : List ℚ) (text : String) (now : ℚ) :
    (∀ e, e ∈ get_experts_needing_embeddings store ↔
      e ∈ store ∧ needs_embedding e = true) ∧
    ((∀ e ∈ store, e.id = expert_id → e.updated_at ≤ now) →
      ∀ e2 ∈ get_experts_needing_embeddings
        (update_expert_embedding store expert_id emb text now), e2.id ≠ expert_id) := by
  refine ⟨fun e => mem_get_experts_needing store e, ?_⟩
  intro hts e2 he2 hid
  obtain ⟨hin, hstale⟩ := (mem_get_experts_needing _ e2).mp he2
  obtain ⟨e0, he0, heq⟩ := List.mem_map.mp hin
  by_cases h0 : e0.id = expert_id
  · rw [if_pos h0] at heq
    subst heq
    have hlt : now < e0.updated_at := by
      simpa [needs_embedding] using hstale
    exact absurd hlt (not_lt.mpr (hts e0 he0 h0))
  · rw [if_neg h0] at heq
    subst heq
    exact h0 hid

/-- Witness for C4: a stale row appears in the stale set; after writing an
embedding at time 2 (no earlier than its updated_at 1) it does not. -/
theorem stale_entities_exact_witness :
    stale_expert ∈ get_experts_needing_embeddings [stale_expert] ∧
    (∀ e ∈ [stale_expert], e.id = "s1" → e.updated_at ≤ 2) ∧
    (∀ e2 ∈ get_experts_needing_embeddings
        (update_expert_embedding [stale_expert] "s1" [1] "text" 2), e2.id ≠ "s1") :=
  ⟨((stale_entities_exact [stale_expert] "s1" [1] "text" 2).1 stale_expert).mpr
      ⟨List.mem_cons_self _ _, by decide⟩,
   by decide,
   (stale_entities_exact [stale_expert] "s1" [1] "text" 2).2 (by decide)⟩

/-- C5 (amended): SemanticMatcher.encode_document returns the 384-dimensional
zero vector, without consulting the model and without error, whenever the
text is empty or shorter than 10 characters once stripped (so the result does
not depend on the model at all there), and otherwise returns the model's
result, letting a model failure propagate as an error distinguishable from
the zero vector. EmbeddingService.generate_embedding, however, raises
ValueError on empty or whitespace-only text instead of returning the zero
vector, and passes any other text - even shorter than 10 meaningful
characters - straight to the model. -/
theorem encode_document_empty_contract (model model2 : String → Except String (List ℚ))
    (text : String) :
    ((text = "" ∨ (pyStrip text).length < 10) →
      encode_document model text = Except.ok (List.replicate 384 0) ∧
      encode_document model text = encode_document model2 text) ∧
    (¬ (text = "" ∨ (pyStrip text).length < 10) →
      encode_document model text = model text) ∧
    ((text = "" ∨ pyStrip text = "") →
      generate_embedding true model text = Except.error "Text cannot be empty") ∧
    (¬ (text = "" ∨ pyStrip text = "") →
      generate_embedding true model text = model text) := by
  refine ⟨fun h => ?_, fun h => ?_, fun h => ?_, fun h => ?_⟩
  · have e1 : encode_document model text = Except.ok (List.replicate 384 0) := by
      unfold encode_document
      rw [if_pos h]
    have e2 : encode_document model2 text = Except.ok (List.replicate 384 0) := by
      unfold encode_document
      rw [if_pos h]
    exact ⟨e1, e1.trans e2.symm⟩
  · unfold encode_document
    rw [if_neg h]
  · simp [generate_embedding, h]
  · simp [generate_embedding, h]

/-- Witness for C5: the near-empty text hi yields the zero vector even under
a failing model, and a long text is passed through to the model by
generate_embedding. -/
theorem encode_document_empty_contract_witness :
    (("hi" = "" ∨ (pyStrip "hi").length < 10) ∧
      encode_document model_fails "hi" = Except.ok (List.replicate 384 0)) ∧
    (¬ ("hello world, a sufficiently long text" = "" ∨
        pyStrip "hello world, a sufficiently long text" = "") ∧
      generate_embedding true model_const_one "hello world, a sufficiently long text" =
        model_const_one "hello world, a sufficiently long text") :=
  ⟨⟨Or.inr (by decide),
    ((encode_document_empty_contract model_fails model_fails "hi").1 (Or.inr (by decide))).1⟩,
   ⟨by decide,
    (encode_document_empty_contract model_const_one model_const_one
      "hello world, a sufficiently long text").2.2.2 (by decide)⟩⟩

/-- C5 counterexample: generate_embedding applied to the empty string raises
ValueError("Text cannot be empty") instead of returning the 384-dimensional
zero vector, so the claim that encode returns the zero vector on empty input
without raising fails for EmbeddingService.generate_embedding. -/
theorem generate_embedding_empty_counterexample :
    generate_embedding true model_const_one "" = Except.error "Text cannot be empty" ∧
    generate_embedding true model_const_one "" ≠ Except.ok (List.replicate 384 0) := by
  have h : generate_embedding true model_const_one "" =
      Except.error "Text cannot be empty" := rfl
  refine ⟨h, ?_⟩
  rw [h]
  intro hc
  exact Except.noConfusion hc

/-- C8 (code bug): the per-expert loop of generate_all_expert_embeddings does
catch and tally a failing expert and keeps processing the rest - on a batch
whose first expert fails to embed, the loop still updates the second and
tallies processed 2, updated 1, errors 1, skipped 0 - but the job never
returns the four-way tally for a non-empty batch: the final summary
evaluates a JavaScript-style str.repeat(60) on a Python str, so the call
raises AttributeError, shown here on a one-expert batch whose every step
succeeded (the loop tally was processed 1, updated 1, errors 0, skipped 0,
yet the job result is the error, not the tally). -/
theorem generate_all_expert_embeddings_crashes :
    generate_all_expert_embeddings embed_ok db_ok [batch_expert_ada] =
      Except.error "AttributeError: str object has no attribute repeat" ∧
    run_batch embed_ok db_ok [batch_expert_ada] = ⟨1, 1, 0, 0⟩ ∧
    run_batch embed_fail_bob db_ok [batch_expert_bob, batch_expert_ada] = ⟨2, 1, 1, 0⟩ :=
  ⟨rfl, by decide, by decide⟩
